import Mathlib

/-!
Verification of the encodapy component configuration-and-data-binding engine.

This file gives a shallow embedding, in Lean 4, of the core of the
`encodapy` repository: the datapoint/allocation data model
(`encodapy/components/basic_component_config.py`), the generic allocation
resolution, config/static data resolution, input value resolution and the
`run` cycle of `BasicComponent` (`encodapy/components/basic_component.py`),
the dynamic schema/behavior loader (`encodapy/components/component_loader.py`),
the two-point controller decision logic
(`encodapy/components/two_point_controller/two_point_controller.py`) and the
thermal-storage state-of-charge computation
(`encodapy/components/thermal_storage.py`).

Python machine floats are embedded as exact rationals (ℚ); Python's
`round(x, n)` (banker's rounding) is embedded as rounding to `n` decimal
places with ties to even over ℚ.  Python exceptions are embedded as an
explicit error type `PyErr` carried in `Except`; the Python exception
hierarchy facts this development needs (KeyError is a LookupError,
pydantic's ValidationError is a ValueError, AttributeError and TypeError
are not LookupErrors) are recorded in the predicates on `PyErr`.
-/

namespace Encodapy

/-- Physical data units (`DataUnits` enum in `encodapy/utils/units.py`).
The enum's member set is irrelevant to the properties proved here, so units
are embedded as their short-code strings. -/
abbrev DataUnit := String

/-- The polymorphic value slot of a datapoint
(`Union[str, float, int, bool, dict, List, DataFrame, None, BaseModel]` in
`DataPointModel`).  Numbers (Python `int`/`float`) are embedded as ℚ; the
structured variants (`dict`, `list`/`DataFrame`) carry no payload because no
claim inspects their contents. -/
inductive PyValue where
  | vStr (s : String)
  | vNum (q : ℚ)
  | vBool (b : Bool)
  | vList
  | vDict
  | vNone
deriving DecidableEq

/-- Python's `isinstance(value, (float, int))`: true for numbers and — as in
Python, where `bool` is a subclass of `int` — for booleans. -/
def PyValue.isFloatOrInt : PyValue → Bool
  | .vNum _ => true
  | .vBool _ => true
  | _ => false

/-- The numeric content of a value that passes `isinstance(value, (float, int))`
(Python `True`/`False` act as `1`/`0` in arithmetic). -/
def PyValue.toQ : PyValue → ℚ
  | .vNum q => q
  | .vBool b => if b then 1 else 0
  | _ => 0

/-- Python `==` between datapoint values.  Mirrors Python semantics on the
embedded variants: numeric cross-type equality (`True == 1`), strings by
content, `None == None`; values of unrelated types compare unequal.  The
payload-free structured variants compare by tag only (no claim compares
structured values). -/
def PyValue.pyEq : PyValue → PyValue → Bool
  | .vStr s, .vStr t => s = t
  | .vNum a, .vNum b => a = b
  | .vBool a, .vBool b => a = b
  | .vNum a, .vBool b => a = (if b then (1 : ℚ) else 0)
  | .vBool a, .vNum b => (if a then (1 : ℚ) else 0) = b
  | .vNone, .vNone => true
  | .vList, .vList => true
  | .vDict, .vDict => true
  | _, _ => false

/-- Embedded Python exceptions, by class, with their message.
`validationError` stands for pydantic's `ValidationError`. -/
inductive PyErr where
  | keyError (msg : String)
  | valueError (msg : String)
  | typeError (msg : String)
  | attributeError (msg : String)
  | moduleNotFoundError (msg : String)
  | validationError (msg : String)
  | componentValidationError (msg : String)
deriving DecidableEq

/-- Python exception-hierarchy fact: of the exception classes this code
raises, exactly `KeyError` is a subclass of `LookupError`. -/
def PyErr.isLookupError : PyErr → Bool
  | .keyError _ => true
  | _ => false

/-- Python exception-hierarchy fact: `ValueError` and its subclass
pydantic `ValidationError` are ValueErrors; `KeyError` is not. -/
def PyErr.isValueError : PyErr → Bool
  | .valueError _ => true
  | .validationError _ => true
  | _ => false

instance {ε α : Type} [DecidableEq ε] [DecidableEq α] :
    DecidableEq (Except ε α) := fun x y =>
  match x, y with
  | .ok a, .ok b =>
    if h : a = b then isTrue (by rw [h])
    else isFalse (by intro hc; cases hc; exact h rfl)
  | .error a, .error b =>
    if h : a = b then isTrue (by rw [h])
    else isFalse (by intro hc; cases hc; exact h rfl)
  | .ok _, .error _ => isFalse (by intro hc; cases hc)
  | .error _, .ok _ => isFalse (by intro hc; cases hc)

/-- `DataPointModel` of `basic_component_config.py`: value, optional unit,
optional timestamp.  Timestamps are opaque (ℕ). -/
structure DataPointModel where
  value : PyValue
  unit : Option DataUnit
  time : Option Nat
deriving DecidableEq

/-- `IOAllocationModel` of `basic_component_config.py`: entity id, attribute
id, optional default value, optional unit. -/
structure IOAllocationModel where
  entity : String
  «attribute» : String
  default : Option PyValue
  unit : Option DataUnit
deriving DecidableEq

/-- One attribute of an input/static entity snapshot
(`AttributeModel` in `encodapy/utils/models.py` as consumed by
`BasicComponent.get_component_input`). -/
structure AttributeModel where
  id : String
  data : PyValue
  unit : Option DataUnit
  latest_timestamp_input : Option Nat
deriving DecidableEq

/-- An entity snapshot (`InputDataEntityModel` / `StaticDataEntityModel`):
an id plus a list of attributes.  The two Python classes share this shape. -/
structure DataEntity where
  id : String
  attributes : List AttributeModel
deriving DecidableEq

/-- The `KeyError` message raised by `BasicComponent.get_component_input`. -/
def inputNotFoundMsg (cfg : IOAllocationModel) : String :=
  "Input data " ++ cfg.entity ++ " / " ++ cfg.attribute ++ " not found. " ++
    "Please check the configuration of the Inputs, Outputs and Static Data."

/-- `BasicComponent.get_component_input`: scan the entities, in order, for
the first one whose id equals the allocation's entity id and which contains
an attribute whose id equals the allocation's attribute id; build a
`DataPointModel` from that attribute's data, unit and timestamp.  If no
entity/attribute pair matches, raise `KeyError` naming both ids. -/
def get_component_input (input_entities : List DataEntity)
    (input_config : IOAllocationModel) : Except PyErr DataPointModel :=
  match input_entities with
  | [] => .error (.keyError (inputNotFoundMsg input_config))
  | e :: rest =>
    if e.id = input_config.entity then
      match e.attributes.find? (fun a => a.id = input_config.attribute) with
      | some attr =>
          .ok { value := attr.data, unit := attr.unit,
                time := attr.latest_timestamp_input }
      | none => get_component_input rest input_config
    else get_component_input rest input_config

/-- A matching attribute exists for the allocation somewhere in the snapshot. -/
def hasMatch (entities : List DataEntity) (cfg : IOAllocationModel) : Prop :=
  ∃ e ∈ entities, e.id = cfg.entity ∧ ∃ a ∈ e.attributes, a.id = cfg.attribute

instance (entities : List DataEntity) (cfg : IOAllocationModel) :
    Decidable (hasMatch entities cfg) := by
  unfold hasMatch; infer_instance

theorem get_component_input_found (entities : List DataEntity)
    (cfg : IOAllocationModel) (h : hasMatch entities cfg) :
    ∃ e ∈ entities, e.id = cfg.entity ∧ ∃ a ∈ e.attributes,
      a.id = cfg.attribute ∧
      get_component_input entities cfg =
        .ok ⟨a.data, a.unit, a.latest_timestamp_input⟩ := by
  induction entities with
  | nil => rcases h with ⟨e, he, _⟩; cases he
  | cons e rest ih =>
    by_cases hid : e.id = cfg.entity
    · cases hfind : e.attributes.find? (fun a => a.id = cfg.attribute) with
      | some attr =>
        refine ⟨e, List.mem_cons_self _ _, hid, attr, List.mem_of_find?_eq_some hfind, ?_, ?_⟩
        · have := List.find?_some hfind
          simpa using this
        · simp [get_component_input, hid, hfind]
      | none =>
        have hrest : hasMatch rest cfg := by
          rcases h with ⟨e', he', hid', a, ha, haid⟩
          rcases List.mem_cons.mp he' with rfl | he'
          · exfalso
            have := List.find?_eq_none.mp hfind a ha
            simp [haid] at this
          · exact ⟨e', he', hid', a, ha, haid⟩
        rcases ih hrest with ⟨e', he', hid', a, ha, haid, hres⟩
        refine ⟨e', List.mem_cons_of_mem _ he', hid', a, ha, haid, ?_⟩
        simpa [get_component_input, hid, hfind] using hres
    · have hrest : hasMatch rest cfg := by
        rcases h with ⟨e', he', hid', a, ha, haid⟩
        rcases List.mem_cons.mp he' with rfl | he'
        · exact absurd hid' hid
        · exact ⟨e', he', hid', a, ha, haid⟩
      rcases ih hrest with ⟨e', he', hid', a, ha, haid, hres⟩
      refine ⟨e', List.mem_cons_of_mem _ he', hid', a, ha, haid, ?_⟩
      simpa [get_component_input, hid] using hres

theorem get_component_input_not_found (entities : List DataEntity)
    (cfg : IOAllocationModel) (h : ¬ hasMatch entities cfg) :
    get_component_input entities cfg =
      .error (.keyError (inputNotFoundMsg cfg)) := by
  induction entities with
  | nil => rfl
  | cons e rest ih =>
    have hrest : ¬ hasMatch rest cfg := by
      intro ⟨e', he', hid', a, ha, haid⟩
      exact h ⟨e', List.mem_cons_of_mem _ he', hid', a, ha, haid⟩
    by_cases hid : e.id = cfg.entity
    · cases hfind : e.attributes.find? (fun a => a.id = cfg.attribute) with
      | some attr =>
        exfalso
        have hmem := List.mem_of_find?_eq_some hfind
        have haid : attr.id = cfg.attribute := by
          have := List.find?_some hfind; simpa using this
        exact h ⟨e, List.mem_cons_self _ _, hid, attr, hmem, haid⟩
      | none => simpa [get_component_input, hid, hfind] using ih hrest
    · simpa [get_component_input, hid] using ih hrest

/-- C2: if some snapshot entity with the allocation's entity id contains an
attribute with the allocation's attribute id, `get_component_input` returns
a `DataPointModel` copying exactly that attribute's data, unit and
timestamp; if no entity/attribute pair matches, it raises a `KeyError`
(a Python `LookupError`) whose message names both the entity id and the
attribute id. -/
theorem getComponentInput_spec (entities : List DataEntity)
    (cfg : IOAllocationModel) :
    (hasMatch entities cfg →
      ∃ e ∈ entities, e.id = cfg.entity ∧ ∃ a ∈ e.attributes,
        a.id = cfg.attribute ∧
        get_component_input entities cfg =
          .ok ⟨a.data, a.unit, a.latest_timestamp_input⟩) ∧
    (¬ hasMatch entities cfg →
      ∃ err, get_component_input entities cfg = .error err ∧
        err.isLookupError = true ∧
        err = .keyError (inputNotFoundMsg cfg)) := by
  constructor
  · exact get_component_input_found entities cfg
  · intro h
    exact ⟨.keyError (inputNotFoundMsg cfg),
      get_component_input_not_found entities cfg h, rfl, rfl⟩

/-- Concrete check of C2 at a two-entity snapshot: the attribute is found in
the second entity, and an absent pair yields the named `KeyError`. -/
theorem getComponentInput_spec_witness :
    (∃ e ∈ [DataEntity.mk "e0" [], DataEntity.mk "tank"
        [⟨"volume", .vNum 2, some "LIT", some 7⟩]],
      e.id = "tank" ∧ ∃ a ∈ e.attributes, a.id = "volume" ∧
        get_component_input
          [DataEntity.mk "e0" [], DataEntity.mk "tank"
            [⟨"volume", .vNum 2, some "LIT", some 7⟩]]
          ⟨"tank", "volume", none, none⟩ =
          .ok ⟨a.data, a.unit, a.latest_timestamp_input⟩) ∧
    (∃ err, get_component_input
        [DataEntity.mk "e0" [], DataEntity.mk "tank"
          [⟨"volume", .vNum 2, some "LIT", some 7⟩]]
        ⟨"tank", "level", none, none⟩ = .error err ∧
        err.isLookupError = true ∧
        err = .keyError (inputNotFoundMsg ⟨"tank", "level", none, none⟩)) := by
  constructor
  · exact (getComponentInput_spec
      [DataEntity.mk "e0" [], DataEntity.mk "tank"
        [⟨"volume", .vNum 2, some "LIT", some 7⟩]]
      ⟨"tank", "volume", none, none⟩).1 (by decide)
  · exact (getComponentInput_spec
      [DataEntity.mk "e0" [], DataEntity.mk "tank"
        [⟨"volume", .vNum 2, some "LIT", some 7⟩]]
      ⟨"tank", "level", none, none⟩).2 (by decide)

/-! ## Input value resolution and the `run` cycle (`BasicComponent`) -/

/-- The per-field body of `BasicComponent.set_input_values`: resolve the
field's allocation against the combined entity list, substitute the
allocation's default when the resolved value is `None`, substitute the
allocation's declared unit when the resolved unit is missing (label-only:
no numeric conversion), and repackage as a fresh `DataPointModel`. -/
def resolveInputField (entities : List DataEntity) (cfg : IOAllocationModel) :
    Except PyErr DataPointModel :=
  match get_component_input entities cfg with
  | .error e => .error e
  | .ok dp =>
    .ok { value := if dp.value = .vNone then cfg.default.getD .vNone
                   else dp.value,
          unit := match dp.unit with
                  | none => cfg.unit
                  | some u => some u,
          time := dp.time }

/-- `BasicComponent.set_input_values`: resolve every field of the
component's Input schema, in order, against the combined input-plus-static
entity list; the first resolution failure aborts the whole pass
(the `KeyError` from `get_component_input` propagates). -/
def set_input_values (entities : List DataEntity) :
    List (String × IOAllocationModel) →
    Except PyErr (List (String × DataPointModel))
  | [] => .ok []
  | (name, cfg) :: rest =>
    match resolveInputField entities cfg with
    | .error e => .error e
    | .ok dp =>
      match set_input_values entities rest with
      | .error e => .error e
      | .ok tail => .ok ((name, dp) :: tail)

/-- One field of a component's Output schema as `BasicComponent.run`
consumes it: the field name, the `calculation` entry of the field's
`json_schema_extra` (`none` when the metadata is absent or not a string —
both are skipped with a warning), and the allocation stored for that field
on `io_model.output` (`none` is skipped). -/
structure OutputField where
  name : String
  calculation : Option String
  allocation : Option IOAllocationModel
deriving DecidableEq

/-- The component's prepared I/O model (`ComponentIOModel`): the input
allocation map and the output fields. -/
structure ComponentIOModel where
  input : List (String × IOAllocationModel)
  output : List OutputField
deriving DecidableEq

/-- `InputDataModel` of `encodapy/utils/models.py`: the per-cycle snapshot. -/
structure InputDataModel where
  input_entities : List DataEntity
  output_entities : List DataEntity
  static_entities : List DataEntity
deriving DecidableEq

/-- `DataTransferComponentModel`: one write-back instruction produced by
`run`. -/
structure DataTransferComponentModel where
  entity_id : String
  attribute_id : String
  value : PyValue
  unit : Option DataUnit
  timestamp : Nat
deriving DecidableEq

/-- A component instance as `BasicComponent.run` sees it: its id, its
prepared I/O model (`none` embeds `io_model is None`), the outcome of
re-validating `io_model.output` against the component's output schema
(pydantic validation, external to this embedding), and its calculation
methods looked up by name (`getattr(self, calculation_function)`). -/
structure RunComponent where
  id : String
  ioModel : Option ComponentIOModel
  outputValidation : Except String Unit
  methods : String → Except PyErr (PyValue × Option DataUnit)

/-- The exceptions `BasicComponent.run` catches around
`set_input_values(...)`: `except (ValueError, KeyError)`; pydantic's
`ValidationError` is a `ValueError`. -/
def PyErr.caughtByRun : PyErr → Bool
  | .valueError _ => true
  | .validationError _ => true
  | .keyError _ => true
  | _ => false

/-- The output loop of `BasicComponent.run`: fields without calculation
metadata or without an output allocation are skipped (warned); for the
rest, the named calculation method is invoked and its `(value, unit)`
result packaged as a write-back instruction stamped `now`.  An exception
from a calculation is not caught: it aborts the loop and discards the
instructions already collected. -/
def runOutputs (now : Nat)
    (methods : String → Except PyErr (PyValue × Option DataUnit)) :
    List OutputField → Except PyErr (List DataTransferComponentModel)
  | [] => .ok []
  | f :: rest =>
    match f.calculation with
    | none => runOutputs now methods rest
    | some fname =>
      match f.allocation with
      | none => runOutputs now methods rest
      | some alloc =>
        match methods fname with
        | .error e => .error e
        | .ok (v, u) =>
          match runOutputs now methods rest with
          | .error e => .error e
          | .ok tail =>
            .ok (⟨alloc.entity, alloc.attribute, v, u, now⟩ :: tail)

/-- `BasicComponent.run`: return `[]` when the I/O model is unset; call
`set_input_values` on the combined input-plus-static entities, catching
`(ValueError, KeyError)` into an empty result; re-validate the output
configuration, catching `ValidationError` into an empty result; then run
the output loop (whose calculation exceptions are NOT caught). -/
def run (c : RunComponent) (data : InputDataModel) (now : Nat) :
    Except PyErr (List DataTransferComponentModel) :=
  match c.ioModel with
  | none => .ok []
  | some io =>
    match set_input_values (data.input_entities ++ data.static_entities)
        io.input with
    | .error e => if e.caughtByRun then .ok [] else .error e
    | .ok _ =>
      match c.outputValidation with
      | .error _ => .ok []
      | .ok _ => runOutputs now c.methods io.output

/-! ## Two-point controller (`TwoPointController.get_control_signal`) -/

/-- `TwoPointControllerValues` of `two_point_controller_config.py`. -/
structure TwoPointControllerValues where
  current_value : ℚ
  current_unit : Option DataUnit
  latest_control_signal : PyValue
deriving DecidableEq

/-- Python's `isinstance(x, (float, int, str))` (booleans are ints). -/
def PyValue.isNumOrStr : PyValue → Bool
  | .vStr _ => true
  | v => v.isFloatOrInt

/-- Python `float(x)` for the values `get_control_signal` feeds it.  The
numeric cases are exact; coercing a string is not modelled (no claim
exercises a string-valued setpoint or hysteresis), so a string conservatively
maps to the `ValueError` Python raises for a non-numeric string. -/
def PyValue.pyFloat? : PyValue → Option ℚ
  | .vNum q => some q
  | .vBool b => some (if b then 1 else 0)
  | _ => none

/-- `TwoPointController.get_control_signal`, with the four static
datapoints (`setpoint_value`, `hysteresis`, `command_enabled`,
`command_disabled`) already fetched from the component's static data, as
the source fetches them at the top of the method.  Mirrors the source's
guard chain and the control law:

* `controller_values` unset → `ValueError`;
* `unit_hysteresis` unset → `ValueError`;
* any static value `None` → `ValueError`;
* setpoint/hysteresis not float/int/str → `ValueError`;
* `current_value < setpoint - hysteresis` → enabled command;
* `current_value > setpoint` → disabled command;
* `latest_control_signal == command_enabled` and
  `current_value > setpoint - hysteresis` → enabled command;
* otherwise → disabled command. -/
def get_control_signal (controller_values : Option TwoPointControllerValues)
    (unit_hysteresis : Option DataUnit)
    (setpoint hysteresis command_enabled command_disabled : Option PyValue)
    (command_enabled_unit command_disabled_unit : Option DataUnit) :
    Except PyErr (PyValue × Option DataUnit) :=
  match controller_values with
  | none => .error (.valueError "Controller values are not set.")
  | some cv =>
    match unit_hysteresis with
    | none => .error (.valueError "Hysteresis unit is not set.")
    | some _ =>
      match setpoint, hysteresis, command_enabled, command_disabled with
      | some sv, some hv, some cev, some cdv =>
        if ¬ (sv.isNumOrStr ∧ hv.isNumOrStr) then
          .error (.valueError "Setpoint or hysteresis is not a valid number.")
        else
          match sv.pyFloat?, hv.pyFloat? with
          | some s, some h =>
            let minimal_value := s - h
            if cv.current_value < minimal_value then
              .ok (cev, command_enabled_unit)
            else if cv.current_value > s then
              .ok (cdv, command_disabled_unit)
            else if cv.latest_control_signal.pyEq cev
                ∧ cv.current_value > minimal_value then
              .ok (cev, command_enabled_unit)
            else
              .ok (cdv, command_disabled_unit)
          | _, _ =>
            .error (.valueError "could not convert string to float")
      | _, _, _, _ =>
        .error (.valueError "One or more static data values are not set.")

/-! ## Lemmas about input resolution -/

theorem get_component_input_error_eq (entities : List DataEntity)
    (cfg : IOAllocationModel) (e : PyErr)
    (h : get_component_input entities cfg = .error e) :
    e = .keyError (inputNotFoundMsg cfg) := by
  induction entities with
  | nil =>
    simp [get_component_input] at h
    exact h.symm
  | cons ent rest ih =>
    by_cases hid : ent.id = cfg.entity
    · cases hfind : ent.attributes.find? (fun a => a.id = cfg.attribute) with
      | some attr => simp [get_component_input, hid, hfind] at h
      | none =>
        simp only [get_component_input, hid, if_true, hfind] at h
        exact ih h
    · simp only [get_component_input, hid, if_false] at h
      exact ih h

theorem resolveInputField_error (entities : List DataEntity)
    (cfg : IOAllocationModel) (e : PyErr)
    (h : resolveInputField entities cfg = .error e) :
    get_component_input entities cfg = .error e := by
  unfold resolveInputField at h
  cases hg : get_component_input entities cfg with
  | error e' => rw [hg] at h; cases h; rfl
  | ok dp => rw [hg] at h; cases h

theorem resolveInputField_ok_of_input (entities : List DataEntity)
    (cfg : IOAllocationModel) (dp : DataPointModel)
    (h : get_component_input entities cfg = .ok dp) :
    resolveInputField entities cfg =
      .ok { value := if dp.value = .vNone then cfg.default.getD .vNone
                     else dp.value,
            unit := match dp.unit with
                    | none => cfg.unit
                    | some u => some u,
            time := dp.time } := by
  unfold resolveInputField
  rw [h]

theorem set_input_values_mem (entities : List DataEntity)
    (fields : List (String × IOAllocationModel))
    (m : List (String × DataPointModel)) (name : String)
    (cfg : IOAllocationModel) (hmem : (name, cfg) ∈ fields)
    (hok : set_input_values entities fields = .ok m) :
    ∃ dp', resolveInputField entities cfg = .ok dp' ∧ (name, dp') ∈ m := by
  induction fields generalizing m with
  | nil => cases hmem
  | cons fld rest ih =>
    obtain ⟨n1, c1⟩ := fld
    cases hres : resolveInputField entities c1 with
    | error e => simp [set_input_values, hres] at hok
    | ok dp =>
      cases htail : set_input_values entities rest with
      | error e => simp [set_input_values, hres, htail] at hok
      | ok tail =>
        have hm : m = (n1, dp) :: tail := by
          simp [set_input_values, hres, htail] at hok
          exact hok.symm
        rcases List.mem_cons.mp hmem with heq | hmem'
        · obtain ⟨rfl, rfl⟩ := Prod.mk.injEq .. ▸ And.intro
            (congrArg Prod.fst heq) (congrArg Prod.snd heq)
          exact ⟨dp, hres, hm ▸ List.mem_cons_self _ _⟩
        · rcases ih tail hmem' htail with ⟨dp', h1, h2⟩
          exact ⟨dp', h1, hm ▸ List.mem_cons_of_mem _ h2⟩

theorem set_input_values_error_of_field_error (entities : List DataEntity)
    (fields : List (String × IOAllocationModel)) (name : String)
    (cfg : IOAllocationModel) (e0 : PyErr)
    (hmem : (name, cfg) ∈ fields)
    (he : get_component_input entities cfg = .error e0) :
    ∃ e, set_input_values entities fields = .error e ∧
      e.isLookupError = true := by
  induction fields with
  | nil => cases hmem
  | cons fld rest ih =>
    obtain ⟨n1, c1⟩ := fld
    cases hres : resolveInputField entities c1 with
    | error e1 =>
      refine ⟨e1, by simp [set_input_values, hres], ?_⟩
      have := get_component_input_error_eq entities c1 e1
        (resolveInputField_error entities c1 e1 hres)
      rw [this]; rfl
    | ok dp =>
      have hmem' : (name, cfg) ∈ rest := by
        rcases List.mem_cons.mp hmem with heq | hmem'
        · exfalso
          have hc : c1 = cfg := congrArg Prod.snd heq.symm
          rw [hc] at hres
          have := resolveInputField_error entities cfg
          unfold resolveInputField at hres
          rw [he] at hres
          cases hres
        · exact hmem'
      rcases ih hmem' with ⟨e, h1, h2⟩
      exact ⟨e, by simp [set_input_values, hres, h1], h2⟩

/-- C10: when an Input-schema field's allocation matches no entity/attribute
pair in the combined snapshot, `set_input_values` raises a lookup error even
though the allocation declares a default value: the default substitutes only
for a found attribute whose data is `None`, never for an absent attribute. -/
theorem setInputValues_unresolved_raises_despite_default
    (entities : List DataEntity)
    (fields : List (String × IOAllocationModel)) (name : String)
    (cfg : IOAllocationModel) (d : PyValue)
    (hmem : (name, cfg) ∈ fields)
    (hdef : cfg.default = some d)
    (hnomatch : ¬ hasMatch entities cfg) :
    ∃ e, set_input_values entities fields = .error e ∧
      e.isLookupError = true := by
  exact set_input_values_error_of_field_error entities fields name cfg
    (.keyError (inputNotFoundMsg cfg)) hmem
    (get_component_input_not_found entities cfg hnomatch)

/-- Concrete check of C10: one field allocated to an absent attribute, with
a declared default of 0, still makes `set_input_values` raise a lookup
error. -/
theorem setInputValues_unresolved_raises_despite_default_witness :
    ∃ e, set_input_values [DataEntity.mk "tank" []]
        [("current_value", ⟨"tank", "temp", some (.vNum 0), none⟩)] =
        .error e ∧ e.isLookupError = true := by
  exact setInputValues_unresolved_raises_despite_default
    [DataEntity.mk "tank" []]
    [("current_value", ⟨"tank", "temp", some (.vNum 0), none⟩)]
    "current_value" ⟨"tank", "temp", some (.vNum 0), none⟩ (.vNum 0)
    (List.mem_singleton.mpr rfl) rfl (by decide)

/-- C8: for every Input-schema field whose allocation resolves to a
datapoint: a `None` value is replaced by the allocation's declared default
(when one is declared); a missing unit is replaced by the allocation's
declared unit; a present value or unit is passed through unchanged (no
numeric conversion happens in input resolution); the timestamp is kept. -/
theorem setInputValues_default_and_unit_fallback (entities : List DataEntity)
    (fields : List (String × IOAllocationModel))
    (m : List (String × DataPointModel)) (name : String)
    (cfg : IOAllocationModel) (dp : DataPointModel)
    (hmem : (name, cfg) ∈ fields)
    (hok : set_input_values entities fields = .ok m)
    (hres : get_component_input entities cfg = .ok dp) :
    ∃ dp', (name, dp') ∈ m ∧ dp'.time = dp.time ∧
      (∀ d, dp.value = .vNone → cfg.default = some d → dp'.value = d) ∧
      (dp.value ≠ .vNone → dp'.value = dp.value) ∧
      (dp.unit = none → dp'.unit = cfg.unit) ∧
      (∀ u, dp.unit = some u → dp'.unit = some u) := by
  rcases set_input_values_mem entities fields m name cfg hmem hok
    with ⟨dp', hres', hm⟩
  rw [resolveInputField_ok_of_input entities cfg dp hres] at hres'
  cases hres'
  refine ⟨_, hm, rfl, ?_, ?_, ?_, ?_⟩
  · intro d hv hd; simp [hv, hd]
  · intro hv; simp [hv]
  · intro hu; simp [hu]
  · intro u hu; simp [hu]

/-- Concrete check of C8: an attribute found with data `None` and no unit,
under an allocation declaring default 21 and unit `CEL`, produces the input
value 21 with unit `CEL` and the attribute's timestamp. -/
theorem setInputValues_default_and_unit_fallback_witness :
    ∃ dp', ("current_value", dp') ∈
        [("current_value", DataPointModel.mk (.vNum 21) (some "CEL") (some 5))] ∧
      dp'.time = some 5 ∧
      (∀ d, PyValue.vNone = PyValue.vNone →
        some (PyValue.vNum 21) = some d → dp'.value = d) ∧
      (PyValue.vNone ≠ PyValue.vNone → dp'.value = PyValue.vNone) ∧
      ((none : Option DataUnit) = none → dp'.unit = some "CEL") ∧
      (∀ u, (none : Option DataUnit) = some u → dp'.unit = some u) := by
  have h := setInputValues_default_and_unit_fallback
    [DataEntity.mk "room" [⟨"temp", .vNone, none, some 5⟩]]
    [("current_value", ⟨"room", "temp", some (.vNum 21), some "CEL"⟩)]
    [("current_value", DataPointModel.mk (.vNum 21) (some "CEL") (some 5))]
    "current_value" ⟨"room", "temp", some (.vNum 21), some "CEL"⟩
    ⟨.vNone, none, some 5⟩
    (List.mem_singleton.mpr rfl) rfl rfl
  simpa using h

/-! ## C1: error containment in `run` -/

theorem set_input_values_error_caught (entities : List DataEntity)
    (fields : List (String × IOAllocationModel)) (e : PyErr)
    (he : set_input_values entities fields = .error e) :
    e.caughtByRun = true := by
  induction fields with
  | nil => cases he
  | cons fld rest ih =>
    obtain ⟨n1, c1⟩ := fld
    cases hres : resolveInputField entities c1 with
    | error e1 =>
      simp [set_input_values, hres] at he
      have := get_component_input_error_eq entities c1 e1
        (resolveInputField_error entities c1 e1 hres)
      rw [← he, this]; rfl
    | ok dp =>
      cases htail : set_input_values entities rest with
      | error e1 =>
        simp [set_input_values, hres, htail] at he
        exact ih (he ▸ htail)
      | ok tail => simp [set_input_values, hres, htail] at he

/-- A two-point controller instance whose `set_input_values` override
returned early without staging `controller_values` (as the source does for
an invalid sensor value), so that its `get_control_signal` calculation
raises `ValueError`.  Its I/O model is prepared: no input fields, one
output field wired to the `get_control_signal` calculation. -/
def tpcRaisingComponent : RunComponent where
  id := "tpc1"
  ioModel := some
    ⟨[], [⟨"control_signal", some "get_control_signal",
      some ⟨"device", "signal", none, none⟩⟩]⟩
  outputValidation := .ok ()
  methods := fun fname =>
    if fname = "get_control_signal" then
      get_control_signal none none none none none none none none
    else .error (.attributeError fname)

/-- Counterexample to C1 as stated: a component with a prepared I/O model
whose per-field calculation raises `ValueError` makes `run` itself raise —
the calculation call is outside every `try` block in
`BasicComponent.run`, so the failure is not caught and no list is
returned. -/
theorem run_calculation_error_escapes_counterexample :
    run tpcRaisingComponent ⟨[], [], []⟩ 0 =
      .error (.valueError "Controller values are not set.") := by
  rfl

/-- C1 (amended): failures inside `run` during input resolution (the
`ValueError`/`KeyError` family, which covers everything
`BasicComponent.set_input_values` raises) and during output validation
(pydantic `ValidationError`) are caught and yield the empty list — in
particular an unresolvable required input allocation yields the empty
list, never a partial list and never an escaping exception — but an
exception raised by a per-field calculation method propagates out of
`run`. -/
theorem run_error_containment (c : RunComponent) (data : InputDataModel)
    (now : Nat) (io : ComponentIOModel) (hio : c.ioModel = some io) :
    (∀ e, set_input_values (data.input_entities ++ data.static_entities)
        io.input = .error e → run c data now = .ok []) ∧
    (∀ msg vals,
      set_input_values (data.input_entities ++ data.static_entities)
        io.input = .ok vals →
      c.outputValidation = .error msg → run c data now = .ok []) ∧
    (∀ name cfg, (name, cfg) ∈ io.input →
      ¬ hasMatch (data.input_entities ++ data.static_entities) cfg →
      run c data now = .ok []) ∧
    (∀ vals f rest fname alloc e,
      set_input_values (data.input_entities ++ data.static_entities)
        io.input = .ok vals →
      c.outputValidation = .ok () → io.output = f :: rest →
      f.calculation = some fname → f.allocation = some alloc →
      c.methods fname = .error e → run c data now = .error e) := by
  refine ⟨?_, ?_, ?_, ?_⟩
  · intro e he
    simp [run, hio, he, set_input_values_error_caught _ _ e he]
  · intro msg vals hvals hval
    simp [run, hio, hvals, hval]
  · intro name cfg hmem hnomatch
    rcases set_input_values_error_of_field_error _ io.input name cfg
        (.keyError (inputNotFoundMsg cfg)) hmem
        (get_component_input_not_found _ cfg hnomatch) with ⟨e, he, _⟩
    simp [run, hio, he, set_input_values_error_caught _ _ e he]
  · intro vals f rest fname alloc e hvals hval hout hcalc halloc herr
    simp [run, hio, hvals, hval, runOutputs, hout, hcalc, halloc, herr]

/-- Concrete check of C1: a component whose single required input is
allocated to an attribute absent from the snapshot returns the empty list
from `run` (the `KeyError` is caught), and the same component with a
raising calculation and resolvable inputs propagates the exception. -/
theorem run_error_containment_witness :
    run ⟨"c1", some ⟨[("current_value", ⟨"tank", "temp", none, none⟩)],
        []⟩, .ok (), fun fname => .error (.attributeError fname)⟩
      ⟨[DataEntity.mk "tank" []], [], []⟩ 0 = .ok [] := by
  exact (run_error_containment
    ⟨"c1", some ⟨[("current_value", ⟨"tank", "temp", none, none⟩)], []⟩,
      .ok (), fun fname => .error (.attributeError fname)⟩
    ⟨[DataEntity.mk "tank" []], [], []⟩ 0
    ⟨[("current_value", ⟨"tank", "temp", none, none⟩)], []⟩ rfl).2.2.1
    "current_value" ⟨"tank", "temp", none, none⟩
    (List.mem_singleton.mpr rfl) (by decide)

/-! ## C4: two-point controller control law -/

/-- C4 (amended): with numeric setpoint `s` and hysteresis `h`,
`get_control_signal` returns the enabled command when
`current_value < s - h`, the disabled command when `current_value > s`,
and holds the previous command strictly inside the band
(`s - h < current_value ≤ s`); at exactly `current_value = s - h` it
returns the disabled command regardless of the previous command. -/
theorem getControlSignal_control_law (s h cvv : ℚ) (latest ce cd : PyValue)
    (cvu : Option DataUnit) (uh : DataUnit) (ceu cdu : Option DataUnit)
    (hh : 0 ≤ h) :
    (cvv < s - h →
      get_control_signal (some ⟨cvv, cvu, latest⟩) (some uh)
        (some (.vNum s)) (some (.vNum h)) (some ce) (some cd) ceu cdu =
        .ok (ce, ceu)) ∧
    (cvv > s →
      get_control_signal (some ⟨cvv, cvu, latest⟩) (some uh)
        (some (.vNum s)) (some (.vNum h)) (some ce) (some cd) ceu cdu =
        .ok (cd, cdu)) ∧
    (s - h < cvv → cvv ≤ s → latest.pyEq ce = true →
      get_control_signal (some ⟨cvv, cvu, latest⟩) (some uh)
        (some (.vNum s)) (some (.vNum h)) (some ce) (some cd) ceu cdu =
        .ok (ce, ceu)) ∧
    (s - h < cvv → cvv ≤ s → latest.pyEq ce = false →
      get_control_signal (some ⟨cvv, cvu, latest⟩) (some uh)
        (some (.vNum s)) (some (.vNum h)) (some ce) (some cd) ceu cdu =
        .ok (cd, cdu)) ∧
    (cvv = s - h →
      get_control_signal (some ⟨cvv, cvu, latest⟩) (some uh)
        (some (.vNum s)) (some (.vNum h)) (some ce) (some cd) ceu cdu =
        .ok (cd, cdu)) := by
  refine ⟨?_, ?_, ?_, ?_, ?_⟩
  · intro h1
    simp [get_control_signal, PyValue.isNumOrStr, PyValue.isFloatOrInt,
      PyValue.pyFloat?, h1]
  · intro h1
    have h2 : ¬ (cvv < s - h) := by linarith
    simp [get_control_signal, PyValue.isNumOrStr, PyValue.isFloatOrInt,
      PyValue.pyFloat?, h1, h2]
  · intro h1 h2 h3
    have h4 : ¬ (cvv < s - h) := by linarith
    have h5 : ¬ (cvv > s) := by linarith
    simp [get_control_signal, PyValue.isNumOrStr, PyValue.isFloatOrInt,
      PyValue.pyFloat?, h1, h2, h3, h4, h5]
  · intro h1 h2 h3
    have h4 : ¬ (cvv < s - h) := by linarith
    have h5 : ¬ (cvv > s) := by linarith
    simp [get_control_signal, PyValue.isNumOrStr, PyValue.isFloatOrInt,
      PyValue.pyFloat?, h1, h2, h3, h4, h5]
  · intro h1
    have h4 : ¬ (cvv < s - h) := by linarith
    have h5 : ¬ (cvv > s) := by linarith
    have h6 : ¬ (cvv > s - h) := by linarith
    simp [get_control_signal, PyValue.isNumOrStr, PyValue.isFloatOrInt,
      PyValue.pyFloat?, h4, h5, h6]

/-- Concrete check of C4 at the spec's examples (setpoint 45,
hysteresis 5, commands "on"/"off"): 39 → enabled; 46 → disabled;
42 with latest "on" → "on"; 42 with latest "off" → "off". -/
theorem getControlSignal_control_law_witness :
    get_control_signal (some ⟨39, some "CEL", .vStr "off"⟩) (some "CEL")
      (some (.vNum 45)) (some (.vNum 5)) (some (.vStr "on"))
      (some (.vStr "off")) none none = .ok (.vStr "on", none) ∧
    get_control_signal (some ⟨46, some "CEL", .vStr "on"⟩) (some "CEL")
      (some (.vNum 45)) (some (.vNum 5)) (some (.vStr "on"))
      (some (.vStr "off")) none none = .ok (.vStr "off", none) ∧
    get_control_signal (some ⟨42, some "CEL", .vStr "on"⟩) (some "CEL")
      (some (.vNum 45)) (some (.vNum 5)) (some (.vStr "on"))
      (some (.vStr "off")) none none = .ok (.vStr "on", none) ∧
    get_control_signal (some ⟨42, some "CEL", .vStr "off"⟩) (some "CEL")
      (some (.vNum 45)) (some (.vNum 5)) (some (.vStr "on"))
      (some (.vStr "off")) none none = .ok (.vStr "off", none) := by
  refine ⟨?_, ?_, ?_, ?_⟩
  · exact (getControlSignal_control_law 45 5 39 (.vStr "off") (.vStr "on")
      (.vStr "off") (some "CEL") "CEL" none none (by norm_num)).1 (by norm_num)
  · exact (getControlSignal_control_law 45 5 46 (.vStr "on") (.vStr "on")
      (.vStr "off") (some "CEL") "CEL" none none (by norm_num)).2.1 (by norm_num)
  · exact (getControlSignal_control_law 45 5 42 (.vStr "on") (.vStr "on")
      (.vStr "off") (some "CEL") "CEL" none none (by norm_num)).2.2.1 (by norm_num)
      (by norm_num) (by decide)
  · exact (getControlSignal_control_law 45 5 42 (.vStr "off") (.vStr "on")
      (.vStr "off") (some "CEL") "CEL" none none (by norm_num)).2.2.2.1 (by norm_num)
      (by norm_num) (by decide)

/-- Counterexample to C4 as stated: at the lower band edge
`current_value = 40 = 45 - 5` with the previous command enabled ("on"),
the code returns the disabled command "off", not the previous command —
the hold condition uses a strict `current_value > setpoint - hysteresis`. -/
theorem getControlSignal_band_edge_counterexample :
    get_control_signal (some ⟨40, some "CEL", .vStr "on"⟩) (some "CEL")
      (some (.vNum 45)) (some (.vNum 5)) (some (.vStr "on"))
      (some (.vStr "off")) none none = .ok (.vStr "off", none) ∧
    (45 : ℚ) - 5 ≤ 40 ∧ (40 : ℚ) ≤ 45 ∧
    PyValue.vStr "off" ≠ PyValue.vStr "on" := by
  refine ⟨?_, by norm_num, by norm_num, by decide⟩
  have h4 : ¬ ((40 : ℚ) < 45 - 5) := by norm_num
  have h5 : ¬ ((40 : ℚ) > 45) := by norm_num
  have h6 : ¬ ((40 : ℚ) > 45 - 5) := by norm_num
  simp [get_control_signal, PyValue.isNumOrStr, PyValue.isFloatOrInt,
    PyValue.pyFloat?, h4, h5, h6]

/-! ## Config/static data resolution (`BasicComponent.set_component_config_data`) -/

/-- One entry of a component's `config` map (`ConfigDataPoints`): either an
allocation to be resolved from static data or a literal datapoint. -/
inductive ConfigEntry where
  | alloc (a : IOAllocationModel)
  | datapoint (d : DataPointModel)
deriving DecidableEq

/-- `any(isinstance(value, IOAllocationModel) for value in
static_config.root.values())`. -/
def configHasAlloc (cfg : List (String × ConfigEntry)) : Bool :=
  cfg.any (fun p => match p.2 with | .alloc _ => true | .datapoint _ => false)

/-- One field of a component's Config-data schema
(`config_model.model_fields`): its name, whether pydantic marks it required
(`is_required()`, true exactly when the schema gives no default), the
schema default, the unit declared in `json_schema_extra`, and the field's
pydantic `validate_assignment` check (embedded as a predicate on the value;
an accepted value is stored unchanged). -/
structure ConfigSchemaField where
  name : String
  required : Bool
  default : Option PyValue
  unitDefault : Option DataUnit
  accepts : PyValue → Bool

/-- The `ComponentValidationError` message for a missing required config
entry (`basic_component.py`, lines 200-203). -/
def missingConfigMsg (name component_id : String) : String :=
  "Config entry '" ++ name ++ "' is missing in the configuration " ++
    "of the component " ++ component_id ++ "."

/-- The `ComponentValidationError` message for an allocation with no static
data (lines 226-229; dead code under the early return of lines 179-185). -/
def needsStaticDataMsg (name component_id : String) : String :=
  "Config entry '" ++ name ++ "' needs static data but its not provided " ++
    "to the component " ++ component_id ++ "."

/-- The `ComponentValidationError` message for an undefined unit conversion
(lines 248-251). -/
def invalidUnitConversionMsg (name : String) (u ud : DataUnit) : String :=
  "Config entry '" ++ name ++ "' has an invalid unit conversion from " ++
    u ++ " to " ++ ud ++ "."

/-- The `ComponentValidationError` message for a non-numeric value under a
unit mismatch (lines 260-263). -/
def invalidValueTypeMsg (name : String) : String :=
  "Config entry '" ++ name ++ "' has an invalid value type to convert " ++
    "units. This is only possible for numeric types (float or int)."

/-- The `ComponentValidationError` message wrapping a pydantic
`ValidationError` from the per-field assignment validation (lines 285-287;
the embedded pydantic error text is a placeholder). -/
def fieldValidationMsg (name : String) : String :=
  "Error in static data configuration for '" ++ name ++ "'" ++
    " Could not validate and set the static data model"

/-- The per-field body of the loop in
`BasicComponent.set_component_config_data`, parametrized by the
unit-conversion table `factor` (`get_unit_adjustment_factor` of
`encodapy/utils/units.py`):

1. a required field absent from the config map →
   `ComponentValidationError` naming the field and the component id;
2. an absent optional field → a datapoint synthesized from the schema
   default and declared unit (the source `continue`s: no unit conversion
   and no assignment validation for this case);
3. a literal datapoint → used as is; an allocation → resolved against the
   static data via `get_component_input` (whose `KeyError` is not caught),
   `ComponentValidationError` if static data is `None`;
4. when both the declared and the resolved unit exist and differ:
   a numeric value (`isinstance(value, (float, int))`) is multiplied by
   the conversion factor and the unit rewritten to the declared one
   (dropping the timestamp, as the source rebuild does);
   `ComponentValidationError` when no factor exists or the value is not
   numeric;
5. the field's assignment validation, with failure wrapped as
   `ComponentValidationError`. -/
def processConfigField (factor : DataUnit → DataUnit → Option ℚ)
    (component_id : String) (static_data : Option (List DataEntity))
    (static_config : List (String × ConfigEntry))
    (f : ConfigSchemaField) : Except PyErr DataPointModel :=
  match static_config.lookup f.name with
  | none =>
    if f.required then
      .error (.componentValidationError (missingConfigMsg f.name component_id))
    else
      .ok { value := f.default.getD .vNone, unit := f.unitDefault,
            time := none }
  | some entry =>
    let resolved : Except PyErr DataPointModel :=
      match entry with
      | .datapoint d => .ok d
      | .alloc a =>
        match static_data with
        | none => .error (.componentValidationError
            (needsStaticDataMsg f.name component_id))
        | some sd => get_component_input sd a
    match resolved with
    | .error e => .error e
    | .ok dp =>
      let converted : Except PyErr DataPointModel :=
        match f.unitDefault, dp.unit with
        | some ud, some u =>
          if u ≠ ud then
            if dp.value.isFloatOrInt then
              match factor u ud with
              | none => .error (.componentValidationError
                  (invalidUnitConversionMsg f.name u ud))
              | some k =>
                .ok (DataPointModel.mk (.vNum (dp.value.toQ * k))
                  (some ud) none)
            else
              .error (.componentValidationError
                (invalidValueTypeMsg f.name))
          else .ok dp
        | _, _ => .ok dp
      match converted with
      | .error e => .error e
      | .ok dp2 =>
        if f.accepts dp2.value then .ok dp2
        else .error (.componentValidationError (fieldValidationMsg f.name))

/-- The loop of `set_component_config_data` over the Config-data schema's
fields, in schema order; the first failing field aborts the loop with its
exception. -/
def processConfigFields (factor : DataUnit → DataUnit → Option ℚ)
    (component_id : String) (static_data : Option (List DataEntity))
    (static_config : List (String × ConfigEntry)) :
    List ConfigSchemaField → Except PyErr (List (String × DataPointModel))
  | [] => .ok []
  | f :: rest =>
    match processConfigField factor component_id static_data static_config
        f with
    | .error e => .error e
    | .ok dp =>
      match processConfigFields factor component_id static_data
          static_config rest with
      | .error e => .error e
      | .ok tail => .ok ((f.name, dp) :: tail)

/-- `BasicComponent.set_component_config_data`.  The result distinguishes
the three return paths: `.ok none` — returned without storing config data
(no static config, the missing-static-data early return of lines 179-185,
or no config model); `.ok (some m)` — config data `m` validated and stored
(the final `ControllerComponentConfigData.model_validate` of a dict of
datapoints always succeeds); `.error e` — the raised exception. -/
def set_component_config_data (factor : DataUnit → DataUnit → Option ℚ)
    (component_id : String)
    (config_model : Option (List ConfigSchemaField))
    (static_data : Option (List DataEntity))
    (static_config : Option (List (String × ConfigEntry))) :
    Except PyErr (Option (List (String × DataPointModel))) :=
  match static_config with
  | none => .ok none
  | some cfg =>
    if static_data.isNone && configHasAlloc cfg then
      .ok none
    else
      match config_model with
      | none => .ok none
      | some fields =>
        match processConfigFields factor component_id static_data cfg
            fields with
        | .error e => .error e
        | .ok m => .ok (some m)

theorem processConfigFields_append_error
    (factor : DataUnit → DataUnit → Option ℚ) (component_id : String)
    (static_data : Option (List DataEntity))
    (cfg : List (String × ConfigEntry))
    (pre post : List ConfigSchemaField) (f : ConfigSchemaField) (e : PyErr)
    (hpre : ∀ g ∈ pre, ∃ dp,
      processConfigField factor component_id static_data cfg g = .ok dp)
    (hf : processConfigField factor component_id static_data cfg f =
      .error e) :
    processConfigFields factor component_id static_data cfg
      (pre ++ f :: post) = .error e := by
  induction pre with
  | nil => simp [processConfigFields, hf]
  | cons g pre ih =>
    rcases hpre g (List.mem_cons_self _ _) with ⟨dp, hg⟩
    have htail := ih (fun g' hg' => hpre g' (List.mem_cons_of_mem _ hg'))
    simp [processConfigFields, hg, htail]

theorem processConfigFields_mem
    (factor : DataUnit → DataUnit → Option ℚ) (component_id : String)
    (static_data : Option (List DataEntity))
    (cfg : List (String × ConfigEntry))
    (fields : List ConfigSchemaField)
    (m : List (String × DataPointModel)) (f : ConfigSchemaField)
    (dp : DataPointModel) (hmem : f ∈ fields)
    (hok : processConfigFields factor component_id static_data cfg fields =
      .ok m)
    (hf : processConfigField factor component_id static_data cfg f =
      .ok dp) :
    (f.name, dp) ∈ m := by
  induction fields generalizing m with
  | nil => cases hmem
  | cons g rest ih =>
    cases hg : processConfigField factor component_id static_data cfg g with
    | error e => simp [processConfigFields, hg] at hok
    | ok dpg =>
      cases htail : processConfigFields factor component_id static_data
          cfg rest with
      | error e => simp [processConfigFields, hg, htail] at hok
      | ok tail =>
        have hm : m = (g.name, dpg) :: tail := by
          simp [processConfigFields, hg, htail] at hok
          exact hok.symm
        rcases List.mem_cons.mp hmem with rfl | hmem'
        · rw [hf] at hg; cases hg
          exact hm ▸ List.mem_cons_self _ _
        · exact hm ▸ List.mem_cons_of_mem _ (ih tail hmem' htail)

/-- C3: when the Config-data schema marks a field required and the field is
absent from the component's config map (and the earlier fields of the
schema process without error, so that the loop reaches it),
`set_component_config_data` raises a `ComponentValidationError` whose
message names the missing field and the component id. -/
theorem setComponentConfigData_missing_required_raises
    (factor : DataUnit → DataUnit → Option ℚ) (component_id : String)
    (static_data : Option (List DataEntity))
    (cfg : List (String × ConfigEntry))
    (pre post : List ConfigSchemaField) (f : ConfigSchemaField)
    (hearly : (static_data.isNone && configHasAlloc cfg) = false)
    (hpre : ∀ g ∈ pre, ∃ dp,
      processConfigField factor component_id static_data cfg g = .ok dp)
    (hreq : f.required = true)
    (habsent : cfg.lookup f.name = none) :
    set_component_config_data factor component_id (some (pre ++ f :: post))
      static_data (some cfg) =
      .error (.componentValidationError
        (missingConfigMsg f.name component_id)) := by
  have hf : processConfigField factor component_id static_data cfg f =
      .error (.componentValidationError
        (missingConfigMsg f.name component_id)) := by
    simp [processConfigField, habsent, hreq]
  have := processConfigFields_append_error factor component_id static_data
    cfg pre post f _ hpre hf
  simp [set_component_config_data, hearly, this]

/-- Concrete check of C3: a schema with an optional field (default 1) and a
required field `setpoint`, a config map supplying neither, with an (empty)
static-data snapshot: construction fails naming `setpoint` and the
component id. -/
theorem setComponentConfigData_missing_required_raises_witness :
    set_component_config_data (fun _ _ => none) "controller_1"
      (some [⟨"hysteresis", false, some (.vNum 1), none, fun _ => true⟩,
             ⟨"setpoint", true, none, none, fun _ => true⟩])
      (some []) (some []) =
      .error (.componentValidationError
        (missingConfigMsg "setpoint" "controller_1")) := by
  exact setComponentConfigData_missing_required_raises (fun _ _ => none)
    "controller_1" (some []) []
    [⟨"hysteresis", false, some (.vNum 1), none, fun _ => true⟩] []
    ⟨"setpoint", true, none, none, fun _ => true⟩ rfl
    (by intro g hg
        rcases List.mem_singleton.mp hg with rfl
        exact ⟨⟨.vNum 1, none, none⟩, rfl⟩)
    rfl rfl

theorem processConfigFields_ok_forall
    (factor : DataUnit → DataUnit → Option ℚ) (component_id : String)
    (static_data : Option (List DataEntity))
    (cfg : List (String × ConfigEntry))
    (fields : List ConfigSchemaField)
    (m : List (String × DataPointModel))
    (hok : processConfigFields factor component_id static_data cfg fields =
      .ok m) :
    ∀ f ∈ fields, ∃ dp,
      processConfigField factor component_id static_data cfg f = .ok dp := by
  induction fields generalizing m with
  | nil => intro f hf; cases hf
  | cons g rest ih =>
    intro f hf
    cases hg : processConfigField factor component_id static_data cfg g with
    | error e => simp [processConfigFields, hg] at hok
    | ok dpg =>
      cases htail : processConfigFields factor component_id static_data
          cfg rest with
      | error e => simp [processConfigFields, hg, htail] at hok
      | ok tail =>
        rcases List.mem_cons.mp hf with rfl | hf'
        · exact ⟨dpg, hg⟩
        · exact ih tail htail f hf'

/-- C5: for a config field whose resolved datapoint carries a unit `u`
different from the schema-declared unit `ud`: when the value is numeric
(`float`/`int`) and the conversion table defines a factor `k`, the stored
datapoint's value is the original value times `k` and its unit is the
schema-declared unit; when the table defines no factor for `(u, ud)`, or
the value fails `isinstance(value, (float, int))`,
`set_component_config_data` raises `ComponentValidationError`. -/
theorem setComponentConfigData_unit_conversion
    (factor : DataUnit → DataUnit → Option ℚ) (component_id : String)
    (static_data : Option (List DataEntity))
    (cfg : List (String × ConfigEntry))
    (pre post : List ConfigSchemaField) (f : ConfigSchemaField)
    (d : DataPointModel) (ud u : DataUnit)
    (hearly : (static_data.isNone && configHasAlloc cfg) = false)
    (hpre : ∀ g ∈ pre, ∃ dp,
      processConfigField factor component_id static_data cfg g = .ok dp)
    (hentry : cfg.lookup f.name = some (.datapoint d))
    (hud : f.unitDefault = some ud)
    (hu : d.unit = some u)
    (hne : u ≠ ud) :
    (∀ q k m, d.value = .vNum q → factor u ud = some k →
      set_component_config_data factor component_id
        (some (pre ++ f :: post)) static_data (some cfg) = .ok (some m) →
      (f.name, DataPointModel.mk (.vNum (q * k)) (some ud) none) ∈ m) ∧
    (∀ q, d.value = .vNum q → factor u ud = none →
      set_component_config_data factor component_id
        (some (pre ++ f :: post)) static_data (some cfg) =
        .error (.componentValidationError
          (invalidUnitConversionMsg f.name u ud))) ∧
    (d.value.isFloatOrInt = false →
      set_component_config_data factor component_id
        (some (pre ++ f :: post)) static_data (some cfg) =
        .error (.componentValidationError (invalidValueTypeMsg f.name))) := by
  refine ⟨?_, ?_, ?_⟩
  · intro q k m hvq hk hok
    have hfields : processConfigFields factor component_id static_data cfg
        (pre ++ f :: post) = .ok m := by
      cases hall : processConfigFields factor component_id static_data cfg
          (pre ++ f :: post) with
      | error e => simp [set_component_config_data, hearly, hall] at hok
      | ok m' =>
        simp [set_component_config_data, hearly, hall] at hok
        rw [hok]
    rcases processConfigFields_ok_forall factor component_id static_data
        cfg _ m hfields f (by simp) with ⟨dp, hdp⟩
    have hcomp : processConfigField factor component_id static_data cfg f =
        (if f.accepts (.vNum (q * k)) then
          .ok (DataPointModel.mk (.vNum (q * k)) (some ud) none)
        else .error (.componentValidationError
          (fieldValidationMsg f.name))) := by
      simp [processConfigField, hentry, hud, hu, hne, hvq, hk,
        PyValue.isFloatOrInt, PyValue.toQ]
    by_cases hacc : f.accepts (.vNum (q * k)) = true
    · rw [hcomp, if_pos hacc] at hdp
      cases hdp
      exact processConfigFields_mem factor component_id static_data cfg _
        m f _ (by simp) hfields (by rw [hcomp, if_pos hacc])
    · rw [hcomp, if_neg hacc] at hdp
      cases hdp
  · intro q hvq hk
    have hf : processConfigField factor component_id static_data cfg f =
        .error (.componentValidationError
          (invalidUnitConversionMsg f.name u ud)) := by
      simp [processConfigField, hentry, hud, hu, hne, hvq, hk,
        PyValue.isFloatOrInt]
    have := processConfigFields_append_error factor component_id
      static_data cfg pre post f _ hpre hf
    simp [set_component_config_data, hearly, this]
  · intro hnotnum
    have hf : processConfigField factor component_id static_data cfg f =
        .error (.componentValidationError (invalidValueTypeMsg f.name)) := by
      simp [processConfigField, hentry, hud, hu, hne, hnotnum]
    have := processConfigFields_append_error factor component_id
      static_data cfg pre post f _ hpre hf
    simp [set_component_config_data, hearly, this]

/-- Concrete check of C5: a config datapoint of 2 kWh under a field whose
schema declares Wh, with conversion factor 1000, is stored as 2000 Wh. -/
theorem setComponentConfigData_unit_conversion_witness :
    ("volume", DataPointModel.mk (.vNum 2000) (some "WHR") none) ∈
      [("volume", DataPointModel.mk (.vNum 2000) (some "WHR") none)] := by
  have h2000 : (2000 : ℚ) = 2 * 1000 := by norm_num
  rw [h2000]
  exact (setComponentConfigData_unit_conversion
    (fun a b => if a = "KWH" ∧ b = "WHR" then some 1000 else none)
    "storage_1" (some []) [("volume", .datapoint ⟨.vNum 2, some "KWH", some 3⟩)]
    [] [] ⟨"volume", true, none, some "WHR", fun v => v.isFloatOrInt⟩
    ⟨.vNum 2, some "KWH", some 3⟩ "WHR" "KWH" rfl
    (by intro g hg; cases hg) rfl rfl rfl (by decide)).1 2 1000
    [("volume", DataPointModel.mk (.vNum (2 * 1000)) (some "WHR") none)]
    rfl (by decide)
    (by simp [set_component_config_data, processConfigFields,
      processConfigField, configHasAlloc, PyValue.isFloatOrInt, PyValue.toQ])

/-- C6: for a config map containing at least one Allocation entry, calling
`set_component_config_data` with `static_data = None` does NOT raise: the
early return of lines 179-185 logs an error and returns without storing
config data, so the call completes with no exception — the raise for this
situation (lines 224-231) is unreachable behind that early return. -/
theorem setComponentConfigData_missing_static_data_returns
    (factor : DataUnit → DataUnit → Option ℚ) (component_id : String)
    (config_model : Option (List ConfigSchemaField))
    (cfg : List (String × ConfigEntry))
    (halloc : configHasAlloc cfg = true) :
    set_component_config_data factor component_id config_model none
      (some cfg) = .ok none := by
  simp [set_component_config_data, halloc]

/-- Concrete check of C6: one allocation entry, no static data — the call
returns normally (`.ok none`), raising nothing. -/
theorem setComponentConfigData_missing_static_data_returns_witness :
    set_component_config_data (fun _ _ => none) "storage_1"
      (some [⟨"volume", true, none, none, fun _ => true⟩]) none
      (some [("volume", .alloc ⟨"tank", "volume", none, none⟩)]) =
      .ok none := by
  exact setComponentConfigData_missing_static_data_returns
    (fun _ _ => none) "storage_1"
    (some [⟨"volume", true, none, none, fun _ => true⟩])
    [("volume", .alloc ⟨"tank", "volume", none, none⟩)] rfl

/-! ## Thermal storage (`encodapy/components/thermal_storage.py`) -/

/-- Python `round(q)` to an integer: round half to even. -/
def roundHalfEven (q : ℚ) : ℤ :=
  if q - ⌊q⌋ < 1/2 then ⌊q⌋
  else if q - ⌊q⌋ > 1/2 then ⌊q⌋ + 1
  else if ⌊q⌋ % 2 = 0 then ⌊q⌋ else ⌊q⌋ + 1

/-- Python `round(q, n)`: round to `n` decimal places, half to even.
Exact over ℚ (the float-representation noise of CPython's `round` is below
every tolerance used here). -/
def pyRound (n : ℕ) (q : ℚ) : ℚ := (roundHalfEven (q * 10 ^ n) : ℚ) / 10 ^ n

/-- First-match association-list lookup (Python `dict` indexing for the
keys this development uses; a missing key raises in Python and is never
consulted here). -/
def assocLookup {α : Type} : List (String × α) → String → Option α
  | [], _ => none
  | (k, v) :: rest, key => if k = key then some v else assocLookup rest key

/-- `MediumParameters` of `encodapy/utils/mediums.py`: specific heat
capacity `cp` and density `rho`. -/
structure MediumParameters where
  cp : ℚ
  rho : ℚ
deriving DecidableEq

/-- `MEDIUM_VALUES[Medium.WATER]` of `encodapy/utils/mediums.py`
(`get_medium_parameter` without a temperature returns these constants):
cp = 4.19, rho = 997. -/
def waterParameters : MediumParameters := ⟨419/100, 997⟩

/-- Modelled from the spec: `TemperatureLimits` of the missing
`encodapy/components/thermal_storage_config.py` — the per-sensor minimum,
maximum and reference temperature limits consumed by
`thermal_storage.py`. -/
structure TemperatureLimits where
  maximal_temperature : ℚ
  minimal_temperature : ℚ
  reference_temperature : ℚ
deriving DecidableEq

/-- Modelled from the spec: one temperature sensor of
`ThermalStorageTemperatureSensors` (missing
`thermal_storage_config.py`) — `sensor_i_name`, `sensor_i_height`
(relative height in %), `sensor_i_limits`.  The storage's sensors are the
populated `sensor_1 .. sensor_5` slots in order, topmost first. -/
structure StorageSensor where
  name : String
  height : ℚ
  limits : TemperatureLimits
deriving DecidableEq

/-- A thermal storage (`ThermalStorage.__init__`): sensor configuration,
volume in m³, and the medium's constant parameters. -/
structure ThermalStorage where
  sensors : List StorageSensor
  volume : ℚ
  medium : MediumParameters
deriving DecidableEq

/-- `ThermalStorage._calculate_volume_per_sensor`: each sensor owns the
vertical slice from the previous boundary (`old_height`, starting at 0) up
to the midpoint with the next sensor's height — or up to 100 % for the
last sensor — scaled to the storage volume. -/
def sensorVolumes (volume : ℚ) : List StorageSensor → ℚ → List (String × ℚ)
  | [], _ => []
  | [s], old => [(s.name, (100 - old) / 100 * volume)]
  | s :: s2 :: rest, old =>
    (s.name, ((s.height + s2.height) / 2 - old) / 100 * volume) ::
      sensorVolumes volume (s2 :: rest) ((s.height + s2.height) / 2)

/-- `ThermalStorage._get_sensor_volume`: the sensor's slice volume rounded
to 3 decimals. -/
def getSensorVolume (st : ThermalStorage) (name : String) : ℚ :=
  pyRound 3 ((assocLookup (sensorVolumes st.volume st.sensors 0) name).getD 0)

/-- `ThermalStorage.get_nominal_energy_content`: the volume-weighted sum of
each sensor's temperature span, times rho and cp, divided by 3.6 (Wh),
rounded to 2 decimals. -/
def get_nominal_energy_content (st : ThermalStorage) : ℚ :=
  pyRound 2 ((st.sensors.map (fun s =>
      (s.limits.maximal_temperature - s.limits.minimal_temperature) *
        getSensorVolume st s.name)).sum *
    st.medium.rho * st.medium.cp / (36/10))

/-- `ThermalStorage.calculate_state_of_charge` on a single snapshot of
sensor temperatures (the `dict` / `TemperatureSensorValues` path, which
builds a one-row frame): the volume-weighted linear position of each
sensor between its limits, scaled to percent of the storage volume and
clipped below at 0; then the topmost-sensor correction
(`check_temperatur_of_highest_sensor`): if the first sensor reads below
its minimal temperature the state of charge is 0, and if it reads within
10 % of its band above the minimum, the raw weighted sum is replaced by
the first sensor's fractional position in its band; rounded to 2
decimals. -/
def calculate_state_of_charge (st : ThermalStorage)
    (temps : List (String × ℚ)) : ℚ :=
  let soc0 := (st.sensors.map (fun s =>
    ((assocLookup temps s.name).getD 0 - s.limits.minimal_temperature) /
      (s.limits.maximal_temperature - s.limits.minimal_temperature) *
      getSensorVolume st s.name)).sum
  let soc1 := max (soc0 / st.volume * 100) 0
  match st.sensors with
  | [] => pyRound 2 soc1
  | s1 :: _ =>
    let t1 := (assocLookup temps s1.name).getD 0
    let lim := s1.limits
    pyRound 2 (if t1 < lim.minimal_temperature then 0
      else if t1 < lim.minimal_temperature +
          (lim.maximal_temperature - lim.minimal_temperature) * (1/10) then
        (t1 - lim.minimal_temperature) /
          (lim.maximal_temperature - lim.minimal_temperature)
      else soc1)

/-- `ThermalStorage.get_energy_content` for an explicitly supplied state of
charge: state of charge (percent) times the nominal energy content,
rounded to 2 decimals. -/
def get_energy_content (st : ThermalStorage) (state_of_charge : ℚ) : ℚ :=
  pyRound 2 (state_of_charge / 100 * get_nominal_energy_content st)

/-- The single-sensor tank of the spec's thermal-storage example: volume
1 m³, water, limits [30, 70] °C, reference 0 °C. -/
def specTank : ThermalStorage :=
  ⟨[⟨"s1", 100, ⟨70, 30, 0⟩⟩], 1, waterParameters⟩

theorem pyRound_eq_low (n : ℕ) (q : ℚ) (f : ℤ)
    (h1 : (f : ℚ) ≤ q * 10 ^ n) (h2 : q * 10 ^ n - f < 1/2) :
    pyRound n q = (f : ℚ) / 10 ^ n := by
  have hfl : ⌊q * 10 ^ n⌋ = f := by
    rw [Int.floor_eq_iff]
    refine ⟨h1, ?_⟩
    push_cast
    linarith
  unfold pyRound roundHalfEven
  rw [hfl, if_pos h2]

theorem pyRound_eq_high (n : ℕ) (q : ℚ) (f : ℤ)
    (h1 : (f : ℚ) ≤ q * 10 ^ n) (h2 : 1/2 < q * 10 ^ n - f)
    (h3 : q * 10 ^ n < f + 1) :
    pyRound n q = ((f : ℚ) + 1) / 10 ^ n := by
  have hfl : ⌊q * 10 ^ n⌋ = f := by
    rw [Int.floor_eq_iff]
    refine ⟨h1, ?_⟩
    push_cast
    linarith
  unfold pyRound roundHalfEven
  rw [hfl, if_neg (by linarith), if_pos h2]
  push_cast
  ring

theorem pyRound_eq_tie_even (n : ℕ) (q : ℚ) (f : ℤ)
    (h1 : q * 10 ^ n - f = 1/2) (h2 : f % 2 = 0) :
    pyRound n q = (f : ℚ) / 10 ^ n := by
  have hfl : ⌊q * 10 ^ n⌋ = f := by
    rw [Int.floor_eq_iff]
    constructor <;> [linarith; (push_cast; linarith)]
  unfold pyRound roundHalfEven
  rw [hfl, if_neg (by linarith), if_neg (by linarith), if_pos h2]

theorem specTank_sensors : specTank.sensors =
    [⟨"s1", 100, ⟨70, 30, 0⟩⟩] := rfl

theorem specTank_sensor_volume : getSensorVolume specTank "s1" = 1 := by
  have h : (assocLookup
      (sensorVolumes specTank.volume specTank.sensors 0) "s1").getD 0 =
      (1 : ℚ) := by
    rw [specTank_sensors]
    show (assocLookup (sensorVolumes specTank.volume
      [⟨"s1", 100, ⟨70, 30, 0⟩⟩] 0) "s1").getD 0 = 1
    simp [sensorVolumes, assocLookup, specTank]
  unfold getSensorVolume
  rw [h, pyRound_eq_low 3 1 1000 (by norm_num) (by norm_num)]
  norm_num

theorem specTank_nominal : get_nominal_energy_content specTank =
    4641589/100 := by
  unfold get_nominal_energy_content
  rw [specTank_sensors]
  simp only [List.map_cons, List.map_nil, List.sum_cons, List.sum_nil,
    specTank_sensor_volume]
  have harg : (((70 : ℚ) - 30) * 1 + 0) * specTank.medium.rho *
      specTank.medium.cp / (36/10) = 417743/9 := by
    norm_num [specTank, waterParameters]
  rw [harg, pyRound_eq_high 2 (417743/9) 4641588 (by norm_num)
    (by norm_num) (by norm_num)]
  norm_num

theorem specTank_energy50 : get_energy_content specTank 50 =
    2320794/100 := by
  unfold get_energy_content
  rw [specTank_nominal]
  have harg : (50 : ℚ) / 100 * (4641589/100) = 4641589/200 := by norm_num
  rw [harg, pyRound_eq_tie_even 2 (4641589/200) 2320794 (by norm_num)
    (by norm_num)]
  norm_num

theorem specTank_soc70 :
    calculate_state_of_charge specTank [("s1", 70)] = 100 := by
  unfold calculate_state_of_charge
  rw [specTank_sensors]
  simp only [List.map_cons, List.map_nil, List.sum_cons, List.sum_nil,
    assocLookup, specTank_sensor_volume]
  norm_num [specTank]
  rw [pyRound_eq_low 2 100 10000 (by norm_num) (by norm_num)]
  norm_num

theorem specTank_soc30 :
    calculate_state_of_charge specTank [("s1", 30)] = 0 := by
  unfold calculate_state_of_charge
  rw [specTank_sensors]
  simp only [List.map_cons, List.map_nil, List.sum_cons, List.sum_nil,
    assocLookup, specTank_sensor_volume]
  norm_num [specTank]
  rw [pyRound_eq_low 2 0 0 (by norm_num) (by norm_num)]
  norm_num

theorem specTank_soc50 :
    calculate_state_of_charge specTank [("s1", 50)] = 50 := by
  unfold calculate_state_of_charge
  rw [specTank_sensors]
  simp only [List.map_cons, List.map_nil, List.sum_cons, List.sum_nil,
    assocLookup, specTank_sensor_volume]
  norm_num [specTank]
  rw [pyRound_eq_low 2 50 5000 (by norm_num) (by norm_num)]
  norm_num

/-- C7 (amended): for the single-sensor 1 m³ water tank with limits
[30, 70] °C: the state of charge is 100 % at 70 °C, 0 % at 30 °C and 50 %
at 50 °C; the nominal energy content is
`round(40 × 997 × 4.19 / 3.6, 2) = 46415.89` Wh (not 46333.6), and the
energy content at 50 % state of charge is half the nominal energy content
up to the final rounding, `23207.94` Wh (not 23166.8). -/
theorem thermalStorage_spec_example :
    calculate_state_of_charge specTank [("s1", 70)] = 100 ∧
    calculate_state_of_charge specTank [("s1", 30)] = 0 ∧
    calculate_state_of_charge specTank [("s1", 50)] = 50 ∧
    get_nominal_energy_content specTank = 4641589/100 ∧
    get_energy_content specTank 50 = 2320794/100 ∧
    get_energy_content specTank 50 =
      pyRound 2 (get_nominal_energy_content specTank / 2) := by
  refine ⟨specTank_soc70, specTank_soc30, specTank_soc50, specTank_nominal,
    specTank_energy50, ?_⟩
  rw [specTank_energy50, specTank_nominal]
  have harg : (4641589 : ℚ)/100 / 2 = 4641589/200 := by norm_num
  rw [harg, pyRound_eq_tie_even 2 (4641589/200) 2320794 (by norm_num)
    (by norm_num)]
  norm_num

/-- Counterexample to C7 as stated: the code's nominal energy content for
the spec's tank differs from the claimed ≈46,333.6 Wh by more than 82 Wh,
and its energy content at 50 % differs from the claimed ≈23,166.8 Wh by
more than 41 Wh — the claim's formula `40 × 997 × 4.19 / 3.6` evaluates to
46415.89, not 46,333.6. -/
theorem thermalStorage_claimed_values_counterexample :
    |get_nominal_energy_content specTank - 463336/10| > 82 ∧
    |get_energy_content specTank 50 - 231668/10| > 41 := by
  rw [specTank_nominal, specTank_energy50]
  constructor <;> rw [abs_of_pos (by norm_num)] <;> norm_num

/-! ## Component loader (`encodapy/components/component_loader.py`) -/

/-- A Python class as the loader inspects it: its `__name__` and its
`issubclass` relationship to each base class the loader checks against. -/
structure PyClass where
  name : String
  subclassOfBasicComponent : Bool
  subclassOfBaseModel : Bool
  subclassOfEnum : Bool
deriving DecidableEq

/-- A loaded module's attribute table (class name → class), as `getattr`
sees it. -/
abbrev PyModule := List (String × PyClass)

/-- The importable modules (`importlib.import_module`): module path →
module.  Embeds the Python environment the loader runs in. -/
abbrev ModuleRegistry := List (String × PyModule)

/-- `ModelTypes` of `component_loader.py`. -/
inductive ModelTypes where
  | component
  | component_config
deriving DecidableEq

/-- Python `str.strip(".")`: remove leading and trailing dots. -/
def stripDots (s : String) : String :=
  String.mk (((s.data.dropWhile (fun c => c = '.')).reverse.dropWhile
    (fun c => c = '.')).reverse)

/-- Python `sep in s` / `str.split(sep)` for a one-character separator,
over the string's character list. -/
def splitCharAux (c : Char) : List Char → List Char → List (List Char)
  | [], acc => [acc.reverse]
  | x :: xs, acc =>
    if x = c then acc.reverse :: splitCharAux c xs []
    else splitCharAux c xs (x :: acc)

/-- Python `str.split(sep)` for a one-character separator. -/
def splitChar (c : Char) (s : String) : List String :=
  (splitCharAux c s.data []).map String.mk

/-- `check_component_type`: a type without a dot stays as is (built-in
registry); a fully qualified type is split into its last segment
(`rsplit(".", 1)[-1]`) and an explicit module path. -/
def check_component_type (component_type : String) : String × Option String :=
  if ¬ component_type.data.contains '.' then (component_type, none)
  else
    ((splitChar '.' component_type).getLastD "",
      some (stripDots component_type ++ "." ++
        stripDots ((splitChar '.' component_type).getLastD "")))

/-- Python `str.capitalize()`: first character uppercased, the rest
lowercased. -/
def pyCapitalize (s : String) : String :=
  match s.data with
  | [] => ""
  | c :: rest => String.mk (c.toUpper :: rest.map Char.toLower)

/-- The loader's naming convention:
`"".join(part.capitalize() for part in component_type.split("_"))`. -/
def pascalModelName (component_type : String) : String :=
  String.join ((splitChar '_' component_type).map pyCapitalize)

/-- `get_component_model`: derive the module path from the component type
and model kind (default base path
`encodapy.components.{type}.{type}`, with `_config` appended for config
models), import it (a missing module raises `ModuleNotFoundError`), and
fetch the pascal-cased class (plus optional subname).  A missing class
raises `AttributeError` — or yields `None` when `none_allowed`. -/
def get_component_model (registry : ModuleRegistry)
    (component_type : String) (model_type : ModelTypes)
    (model_subname : Option String) (module_base_path : Option String)
    (none_allowed : Bool) : Except PyErr (Option PyClass) :=
  let base := module_base_path.getD
    ("encodapy.components." ++ component_type ++ "." ++ component_type)
  let module_path :=
    match model_type with
    | .component => base
    | .component_config => base ++ "_config"
  match assocLookup registry module_path with
  | none => .error (.moduleNotFoundError ("No module named " ++ module_path))
  | some m =>
    match assocLookup m (pascalModelName component_type ++
        model_subname.getD "") with
    | some cls => .ok (some cls)
    | none =>
      if none_allowed then .ok none
      else .error (.attributeError ("Class model '" ++
        (pascalModelName component_type ++ model_subname.getD "") ++
        "' not found in " ++ module_path))

/-- `get_component_class_model`: resolve the behavior class; `KeyError` if
the lookup yields `None` (unreachable, since `none_allowed` is false);
`TypeError` if the class does not subclass `BasicComponent`. -/
def get_component_class_model (registry : ModuleRegistry)
    (component_type : String) : Except PyErr PyClass :=
  match get_component_model registry
      (check_component_type component_type).1 .component none
      (check_component_type component_type).2 false with
  | .error e => .error e
  | .ok none => .error (.keyError ("Component class not found for " ++
      (check_component_type component_type).1))
  | .ok (some cls) =>
    if cls.subclassOfBasicComponent then .ok cls
    else .error (.typeError ("Component class " ++ cls.name ++
      " is not a subclass of BasicComponent"))

/-- `get_component_io_model`: resolve an Input/Output/Config schema class;
`TypeError` if it does not subclass pydantic `BaseModel`. -/
def get_component_io_model (registry : ModuleRegistry)
    (component_type : String) (model_subname : String) :
    Except PyErr PyClass :=
  match get_component_model registry
      (check_component_type component_type).1 .component_config
      (some model_subname) (check_component_type component_type).2 false with
  | .error e => .error e
  | .ok none => .error (.keyError ("Component Config Model not found for " ++
      (check_component_type component_type).1))
  | .ok (some cls) =>
    if cls.subclassOfBaseModel then .ok cls
    else .error (.typeError ("Component class " ++ cls.name ++
      " is not a subclass of BaseModel"))

/-- `get_component_static_data_model`: resolve the optional static-data
enum with `none_allowed`, so a missing class is a normal `None`;
`TypeError` if a found class does not subclass `Enum`. -/
def get_component_static_data_model (registry : ModuleRegistry)
    (component_type : String) (model_subname : String) :
    Except PyErr (Option PyClass) :=
  match get_component_model registry
      (check_component_type component_type).1 .component_config
      (some model_subname) (check_component_type component_type).2 true with
  | .error e => .error e
  | .ok none => .ok none
  | .ok (some cls) =>
    if cls.subclassOfEnum then .ok (some cls)
    else .error (.typeError ("Component class " ++ cls.name ++
      " is not a subclass of Enum"))

/-- C9 (amended): for a built-in (dot-free) component type, resolving the
behavior class fails with `AttributeError` — not a `LookupError` — when no
class of the conventional name exists in the component's module, and with
`TypeError` — not a `LookupError` — when the resolved class does not
extend `BasicComponent`; resolving a schema class
(`get_component_io_model`) fails the same way — `AttributeError` when the
config module defines no class of the conventional name, `TypeError` when
the resolved class does not extend pydantic `BaseModel`, neither a
`LookupError`; for the optional static-data schema kind a missing class
yields `None` (a normal "no static-data required" signal) rather than an
error. -/
theorem componentLoader_resolution_failures (registry : ModuleRegistry)
    (t : String) (hdot : t.data.contains '.' = false) :
    (∀ m, assocLookup registry
        ("encodapy.components." ++ t ++ "." ++ t) = some m →
      assocLookup m (pascalModelName t) = none →
      get_component_class_model registry t =
        .error (.attributeError ("Class model '" ++ pascalModelName t ++
          "' not found in " ++
          ("encodapy.components." ++ t ++ "." ++ t))) ∧
      PyErr.isLookupError (.attributeError ("Class model '" ++
        pascalModelName t ++ "' not found in " ++
        ("encodapy.components." ++ t ++ "." ++ t))) = false) ∧
    (∀ m cls, assocLookup registry
        ("encodapy.components." ++ t ++ "." ++ t) = some m →
      assocLookup m (pascalModelName t) = some cls →
      cls.subclassOfBasicComponent = false →
      get_component_class_model registry t =
        .error (.typeError ("Component class " ++ cls.name ++
          " is not a subclass of BasicComponent")) ∧
      PyErr.isLookupError (.typeError ("Component class " ++ cls.name ++
        " is not a subclass of BasicComponent")) = false) ∧
    (∀ mc sub, assocLookup registry
        ("encodapy.components." ++ t ++ "." ++ t ++ "_config") = some mc →
      assocLookup mc (pascalModelName t ++ sub) = none →
      get_component_io_model registry t sub =
        .error (.attributeError ("Class model '" ++
          (pascalModelName t ++ sub) ++ "' not found in " ++
          ("encodapy.components." ++ t ++ "." ++ t ++ "_config"))) ∧
      PyErr.isLookupError (.attributeError ("Class model '" ++
        (pascalModelName t ++ sub) ++ "' not found in " ++
        ("encodapy.components." ++ t ++ "." ++ t ++ "_config"))) = false) ∧
    (∀ mc sub cls, assocLookup registry
        ("encodapy.components." ++ t ++ "." ++ t ++ "_config") = some mc →
      assocLookup mc (pascalModelName t ++ sub) = some cls →
      cls.subclassOfBaseModel = false →
      get_component_io_model registry t sub =
        .error (.typeError ("Component class " ++ cls.name ++
          " is not a subclass of BaseModel")) ∧
      PyErr.isLookupError (.typeError ("Component class " ++ cls.name ++
        " is not a subclass of BaseModel")) = false) ∧
    (∀ mc sub, assocLookup registry
        ("encodapy.components." ++ t ++ "." ++ t ++ "_config") = some mc →
      assocLookup mc (pascalModelName t ++ sub) = none →
      get_component_static_data_model registry t sub = .ok none) := by
  have hct : check_component_type t = (t, none) := by
    simp only [check_component_type, hdot]
    simp
  refine ⟨?_, ?_, ?_, ?_, ?_⟩
  · intro m hmod hmiss
    refine ⟨?_, rfl⟩
    simp [get_component_class_model, hct, get_component_model, hmod, hmiss]
  · intro m cls hmod hcls hnotsub
    refine ⟨?_, rfl⟩
    simp [get_component_class_model, hct, get_component_model, hmod, hcls,
      hnotsub]
  · intro mc sub hmod hmiss
    refine ⟨?_, rfl⟩
    simp [get_component_io_model, hct, get_component_model, hmod, hmiss]
  · intro mc sub cls hmod hcls hnotsub
    refine ⟨?_, rfl⟩
    simp [get_component_io_model, hct, get_component_model, hmod, hcls,
      hnotsub]
  · intro mc sub hmod hmiss
    simp [get_component_static_data_model, hct, get_component_model, hmod,
      hmiss]

/-- Concrete check of C9: a module registered for type `bar` that defines
no `Bar` class makes behavior resolution fail with `AttributeError`; its
config module, defining only a non-`BaseModel` class `BarOutputModel`,
makes schema resolution fail with `AttributeError` for the missing
`BarInputModel` and with `TypeError` for `BarOutputModel`; and the missing
`BarStaticData` enum makes static-data resolution yield `None`. -/
theorem componentLoader_resolution_failures_witness :
    get_component_class_model
      [("encodapy.components.bar.bar", []),
       ("encodapy.components.bar.bar_config",
        [("BarOutputModel", ⟨"BarOutputModel", false, false, false⟩)])]
      "bar" =
      .error (.attributeError ("Class model '" ++ pascalModelName "bar" ++
        "' not found in " ++
        ("encodapy.components." ++ "bar" ++ "." ++ "bar"))) ∧
    get_component_io_model
      [("encodapy.components.bar.bar", []),
       ("encodapy.components.bar.bar_config",
        [("BarOutputModel", ⟨"BarOutputModel", false, false, false⟩)])]
      "bar" "InputModel" =
      .error (.attributeError ("Class model '" ++
        (pascalModelName "bar" ++ "InputModel") ++ "' not found in " ++
        ("encodapy.components." ++ "bar" ++ "." ++ "bar" ++ "_config"))) ∧
    get_component_io_model
      [("encodapy.components.bar.bar", []),
       ("encodapy.components.bar.bar_config",
        [("BarOutputModel", ⟨"BarOutputModel", false, false, false⟩)])]
      "bar" "OutputModel" =
      .error (.typeError ("Component class " ++ "BarOutputModel" ++
        " is not a subclass of BaseModel")) ∧
    get_component_static_data_model
      [("encodapy.components.bar.bar", []),
       ("encodapy.components.bar.bar_config",
        [("BarOutputModel", ⟨"BarOutputModel", false, false, false⟩)])]
      "bar" "StaticData" =
      .ok none := by
  refine ⟨?_, ?_, ?_, ?_⟩
  · exact ((componentLoader_resolution_failures
      [("encodapy.components.bar.bar", []),
       ("encodapy.components.bar.bar_config",
        [("BarOutputModel", ⟨"BarOutputModel", false, false, false⟩)])]
      "bar" (by decide)).1 [] (by decide) (by decide)).1
  · exact ((componentLoader_resolution_failures
      [("encodapy.components.bar.bar", []),
       ("encodapy.components.bar.bar_config",
        [("BarOutputModel", ⟨"BarOutputModel", false, false, false⟩)])]
      "bar" (by decide)).2.2.1
      [("BarOutputModel", ⟨"BarOutputModel", false, false, false⟩)]
      "InputModel" (by decide) (by decide)).1
  · exact ((componentLoader_resolution_failures
      [("encodapy.components.bar.bar", []),
       ("encodapy.components.bar.bar_config",
        [("BarOutputModel", ⟨"BarOutputModel", false, false, false⟩)])]
      "bar" (by decide)).2.2.2.1
      [("BarOutputModel", ⟨"BarOutputModel", false, false, false⟩)]
      "OutputModel" ⟨"BarOutputModel", false, false, false⟩
      (by decide) (by decide) rfl).1
  · exact (componentLoader_resolution_failures
      [("encodapy.components.bar.bar", []),
       ("encodapy.components.bar.bar_config",
        [("BarOutputModel", ⟨"BarOutputModel", false, false, false⟩)])]
      "bar" (by decide)).2.2.2.2
      [("BarOutputModel", ⟨"BarOutputModel", false, false, false⟩)]
      "StaticData" (by decide) (by decide)

/-- Counterexample to C9 as stated: a registered implementation class that
does not extend `BasicComponent` makes `get_component_class_model` raise
`TypeError`, which is not a Python `LookupError` (and a missing class
raises `AttributeError`, also not a `LookupError`). -/
theorem componentLoader_typeError_counterexample :
    get_component_class_model
      [("encodapy.components.foo.foo",
        [("Foo", ⟨"Foo", false, true, false⟩)])] "foo" =
      .error (.typeError "Component class Foo is not a subclass of BasicComponent") ∧
    PyErr.isLookupError
      (.typeError "Component class Foo is not a subclass of BasicComponent") =
      false := by
  exact ⟨by decide, rfl⟩

end Encodapy
